import Mathlib

/-!
Verification development for the portfolio risk-assessment engine in
src/agents/risk_assessment_agent.py (class RiskAssessmentAgent).

Python float arithmetic is embedded as exact rational arithmetic (ℚ);
non-finite numpy values (inf / -inf / nan), where they can arise, are
modelled explicitly by the NpFloat type.  Python dictionaries with a
fixed key set become structures; dictionaries used as finite maps become
association lists with List.lookup semantics.  Python exceptions that
escape a function are modelled with Except String; the blanket
try/except blocks of the source, which convert an exception into a
returned error dict, are modelled by the Except value itself being the
function result.  Leading underscores of Python method names are dropped.
-/

namespace RiskAgent

/-! ## Data model -/

/-- A holding of the input portfolio: source accesses holding['symbol'] and
holding['quantity'] directly (lines 264-266). -/
structure Holding where
  symbol : String
  quantity : ℚ
deriving Repr, DecidableEq

/-- Per-symbol price data dict: an optional 'current_price' entry and a
'prices' list.  Each element of 'prices' is the 'price' field of one price
record (timestamps are never read by the functions modelled here). -/
structure PriceData where
  current_price : Option ℚ := none
  prices : List ℚ := []
deriving Repr, DecidableEq

/-- price_data.get(symbol, {}).get('current_price', 0) (source line 267). -/
def current_price_of (price_data : List (String × PriceData)) (symbol : String) : ℚ :=
  match price_data.lookup symbol with
  | none => 0
  | some pd => pd.current_price.getD 0

/-- price_data.get(symbol, {}).get('prices', []) (source lines 504, 522). -/
def prices_of (price_data : List (String × PriceData)) (symbol : String) : List ℚ :=
  match price_data.lookup symbol with
  | none => []
  | some pd => pd.prices

/-- One entry of portfolio_data['assets'] (source lines 272-278). -/
structure Asset where
  symbol : String
  quantity : ℚ
  current_price : ℚ
  value : ℚ
  weight : ℚ
deriving Repr, DecidableEq

/-- portfolio_data as returned by _prepare_portfolio_data (lines 284-288). -/
structure PortfolioData where
  assets : List Asset
  total_value : ℚ
  asset_count : ℕ
deriving Repr, DecidableEq

/-- _prepare_portfolio_data (source lines 259-288): values each holding at
quantity * current_price, sums the total, then sets
weight = value / total_value if total_value > 0 else 0. -/
def prepare_portfolio_data (holdings : List Holding)
    (price_data : List (String × PriceData)) : PortfolioData :=
  let base : List Asset := holdings.map (fun h =>
    let price := current_price_of price_data h.symbol
    { symbol := h.symbol, quantity := h.quantity, current_price := price,
      value := h.quantity * price, weight := 0 })
  let total_value : ℚ := (base.map (·.value)).sum
  let assets : List Asset := base.map (fun a =>
    { a with weight := if total_value > 0 then a.value / total_value else 0 })
  { assets := assets, total_value := total_value, asset_count := assets.length }

/-! ## Overall risk score (_calculate_overall_risk_score, lines 406-445)

The function reads four values out of the risk_assessment dict with chained
.get(..., default) calls; a sub-result that is missing (stage returned an
error dict) yields the default.  That optionality is modelled by Option
fields, .get's default by Option.getD. -/

/-- The four numeric inputs _calculate_overall_risk_score reads from the
risk_assessment dict (source lines 413, 419, 425, 431); none when the
corresponding sub-result does not carry the key. -/
structure RiskScoreInputs where
  annual_volatility : Option ℚ := none
  var_95_percentage : Option ℚ := none
  average_correlation : Option ℚ := none
  portfolio_resilience_score : Option ℚ := none
deriving Repr, DecidableEq

/-- _calculate_overall_risk_score (source lines 406-445).  All four
sub-scores are always present, with defaults 0, 0, 0 and 50; np.average
divides the weighted sum by the weight total; the result is clamped with
min(100, max(0, .)). -/
def calc_overall_risk_score (x : RiskScoreInputs) : ℚ :=
  let volatility_score := min 100 ((x.annual_volatility.getD 0) * 100)
  let var_score := min 100 |x.var_95_percentage.getD 0|
  let correlation_score := |x.average_correlation.getD 0| * 100
  let stress_score := 100 - x.portfolio_resilience_score.getD 50
  let overall := ((3/10) * volatility_score + (1/4) * var_score
      + (1/5) * correlation_score + (1/4) * stress_score)
      / ((3/10) + (1/4) + (1/5) + (1/4))
  min 100 (max 0 overall)

/-- Modelled from the spec (section 4.6): the overall score as the spec words
it — a weighted mean over only those sub-scores that were actually
computable, the fixed weights renormalized over that subset, defaulting to
50 when no sub-score is computable.  Used solely to compare against the
source's calc_overall_risk_score. -/
def overall_risk_score_spec (x : RiskScoreInputs) : ℚ :=
  let entries : List (ℚ × ℚ) :=
    (match x.annual_volatility with
     | some v => [((3/10), min 100 (v * 100))] | none => []) ++
    (match x.var_95_percentage with
     | some v => [((1/4), min 100 |v|)] | none => []) ++
    (match x.average_correlation with
     | some v => [((1/5), |v| * 100)] | none => []) ++
    (match x.portfolio_resilience_score with
     | some r => [((1/4), 100 - r)] | none => [])
  let wsum := (entries.map (·.1)).sum
  if wsum = 0 then 50 else (entries.map (fun e => e.1 * e.2)).sum / wsum

/-! ## Return series (_calculate_returns, lines 502-510)

The source computes np.diff(prices) / prices[:-1] with no filtering of
zero or negative prices.  numpy emits inf / -inf / nan (warnings are
globally suppressed at line 16) instead of raising, so each produced
return is modelled as an NpFloat. -/

/-- A numpy double as produced by the return computation: finite, one of
the two infinities, or nan. -/
inductive NpFloat where
  | fin (q : ℚ)
  | inf
  | neginf
  | nan
deriving Repr, DecidableEq

/-- Whether a numpy value is finite (np.isfinite). -/
def NpFloat.isFinite : NpFloat → Bool
  | .fin _ => true
  | _ => false

/-- One element of np.diff(prices) / prices[:-1]: (cur - prev) / prev with
IEEE semantics at prev = 0 (numerator cur - 0 = cur decides the sign;
0 / 0 is nan). -/
def np_div_return (prev cur : ℚ) : NpFloat :=
  if prev = 0 then
    if cur > 0 then .inf else if cur < 0 then .neginf else .nan
  else .fin ((cur - prev) / prev)

/-- _calculate_returns (source lines 502-510) applied to the extracted
price list: empty when fewer than 2 prices, otherwise one return per
consecutive pair, no record excluded. -/
def calc_returns (prices : List ℚ) : List NpFloat :=
  if prices.length < 2 then []
  else (prices.zip prices.tail).map (fun pc => np_div_return pc.1 pc.2)

/-! ## Historical VaR (calculate_var, lines 144-203)

np.percentile with the default linear interpolation: sort ascending, take
the virtual index h = q/100 * (n-1), linearly interpolate between the two
neighbouring order statistics.  The parametric-VaR block (lines 185-197)
needs the inverse normal CDF and is not part of any claim; it is not
modelled. -/

/-- Linear interpolation of a (sorted) list at virtual index h, exactly
np.percentile's inner step: i = floor(h), result
s[i] + (h - i) * (s[i+1] - s[i]) (the last order statistic when i is the
final index). -/
def interpSorted (s : List ℚ) (h : ℚ) : ℚ :=
  let i := (⌊h⌋).toNat
  if i + 1 < s.length then
    s.getD i 0 + (h - (i : ℚ)) * (s.getD (i + 1) 0 - s.getD i 0)
  else s.getD i 0

/-- np.percentile(xs, q) with linear interpolation (the default). -/
def npPercentile (xs : List ℚ) (q : ℚ) : ℚ :=
  let s := List.insertionSort (· ≤ ·) xs
  interpSorted s (q * ((s.length : ℚ) - 1) / 100)

/-- Historical VaR at one confidence level (source lines 166-167):
np.percentile(portfolio_returns, (1 - confidence) * 100). -/
def historical_var (portfolio_returns : List ℚ) (confidence : ℚ) : ℚ :=
  npPercentile portfolio_returns ((1 - confidence) * 100)

/-- Expected shortfall at one confidence level (source lines 170-171):
mean of the returns at or below the VaR value, the VaR value itself when
that tail is empty. -/
def expected_shortfall_at (portfolio_returns : List ℚ) (confidence : ℚ) : ℚ :=
  let v := historical_var portfolio_returns confidence
  let tail := portfolio_returns.filter (· ≤ v)
  if tail.length > 0 then tail.sum / (tail.length : ℚ) else v

/-- One entry of var_results['var_estimates'] (source lines 173-177). -/
structure VarEstimate where
  var_absolute : ℚ
  var_percentage : ℚ
  var_dollar : ℚ
deriving Repr, DecidableEq

/-- var_results for the historical-simulation part (source lines 149-183),
keyed by confidence level. -/
structure VarResults where
  confidence_levels : List ℚ
  var_estimates : List (ℚ × VarEstimate)
  expected_shortfall : List (ℚ × ℚ)
deriving Repr, DecidableEq

/-- calculate_var (source lines 144-203) on an already-computed portfolio
return series: an error dict when fewer than 30 observations, otherwise
historical VaR and expected shortfall per requested confidence level. -/
def calculate_var (portfolio_returns : List ℚ) (total_value : ℚ)
    (confidence_levels : List ℚ) : Except String VarResults :=
  if portfolio_returns.length < 30 then
    .error "Insufficient data for VaR calculation"
  else
    .ok { confidence_levels := confidence_levels
          var_estimates := confidence_levels.map (fun c =>
            let v := historical_var portfolio_returns c
            (c, { var_absolute := v, var_percentage := v * 100,
                  var_dollar := v * total_value }))
          expected_shortfall := confidence_levels.map (fun c =>
            (c, expected_shortfall_at portfolio_returns c)) }

/-! ## Maximum drawdown (_calculate_max_drawdown, lines 520-531) -/

/-- np.cumprod with running accumulator. -/
def cumprodAux (acc : ℚ) : List ℚ → List ℚ
  | [] => []
  | x :: xs => (acc * x) :: cumprodAux (acc * x) xs

/-- np.cumprod: [a, b, c] becomes [a, a*b, a*b*c]. -/
def cumprod (l : List ℚ) : List ℚ := cumprodAux 1 l

/-- np.maximum.accumulate with running maximum. -/
def runningMaxAux (m : ℚ) : List ℚ → List ℚ
  | [] => []
  | x :: xs => (max m x) :: runningMaxAux (max m x) xs

/-- np.maximum.accumulate: prefix maxima. -/
def runningMax : List ℚ → List ℚ
  | [] => []
  | x :: xs => x :: runningMaxAux x xs

/-- np.min over a list (0 on the empty list, which never occurs in the
guarded uses below). -/
def listMin : List ℚ → ℚ
  | [] => 0
  | x :: xs => xs.foldl min x

/-- _calculate_max_drawdown (source lines 520-531) on the extracted price
list: cumulative product of 1 + return, running maximum, drawdown
(cumulative - running_max) / running_max, result abs(min(drawdown)); 0
when fewer than 2 prices.  Divisions are exact rational arithmetic, which
agrees with numpy whenever every divisor is nonzero — the case for the
positive price series the drawdown claim quantifies over (a zero price
would make numpy propagate inf/nan instead). -/
def calc_max_drawdown (prices : List ℚ) : ℚ :=
  if prices.length < 2 then 0
  else
    let returns := (prices.zip prices.tail).map (fun pc => (pc.2 - pc.1) / pc.1)
    let cumulative := cumprod (returns.map (fun r => 1 + r))
    let running := runningMax cumulative
    let drawdown := (cumulative.zip running).map (fun cm => (cm.1 - cm.2) / cm.2)
    |listMin drawdown|

/-! ## Stress testing (perform_stress_test, lines 205-257, and
_apply_stress_scenario, lines 680-714) -/

/-- One entry of asset_impacts (source lines 704-709). -/
structure AssetImpact where
  original_price : ℚ
  new_price : ℚ
  shock_applied : ℚ
  value_change : ℚ
deriving Repr, DecidableEq

/-- The shock-resolution if/elif chain of _apply_stress_scenario (source
lines 691-697): shock = 0; if 'all' in shocks then shocks['all'];
elif symbol in shocks then shocks[symbol]; elif 'others' in shocks then
shocks['others'].  Note the source tests 'all' BEFORE the exact symbol. -/
def resolve_shock (shocks : List (String × ℚ)) (symbol : String) : ℚ :=
  match shocks.lookup "all" with
  | some s => s
  | none =>
    match shocks.lookup symbol with
    | some s => s
    | none => (shocks.lookup "others").getD 0

/-- Modelled from the spec (sections 4.5 and 9): the precedence-ordered
lookup the spec asks for, applied with the precedence the source actually
implements: the first key among 'all', the exact symbol, 'others' that is
present in the shocks mapping determines the shock, otherwise 0. -/
def resolve_shock_ordered (shocks : List (String × ℚ)) (symbol : String) : ℚ :=
  match (["all", symbol, "others"].filter
      (fun k => (shocks.lookup k).isSome)) with
  | [] => 0
  | k :: _ => (shocks.lookup k).getD 0

/-- _apply_stress_scenario (source lines 680-714): per holding, resolve the
shock, reprice at current_price * (1 + shock), accumulate the new total
value and record the per-asset impact (the Python dict keyed by symbol is
kept as the list of its insertions, one per holding). -/
def apply_stress_scenario (holdings : List Holding)
    (shocks : List (String × ℚ)) (price_data : List (String × PriceData)) :
    ℚ × List (String × AssetImpact) :=
  holdings.foldl (fun acc h =>
    let current_price := current_price_of price_data h.symbol
    let shock := resolve_shock shocks h.symbol
    let new_price := current_price * (1 + shock)
    let new_asset_value := h.quantity * new_price
    (acc.1 + new_asset_value,
     acc.2 ++ [(h.symbol,
       { original_price := current_price, new_price := new_price,
         shock_applied := shock,
         value_change := new_asset_value - h.quantity * current_price })]))
    (0, [])

/-- A stress scenario (source lines 650-678). -/
structure Scenario where
  name : String
  description : String := ""
  shocks : List (String × ℚ)
deriving Repr, DecidableEq

/-- _get_default_stress_scenarios (source lines 650-678). -/
def default_stress_scenarios : List Scenario :=
  [ { name := "market_crash", description := "Severe market crash scenario",
      shocks := [("all", -(1/2))] },
    { name := "crypto_winter", description := "Extended bear market",
      shocks := [("all", -(4/5))] },
    { name := "bitcoin_crash", description := "Bitcoin-specific crash",
      shocks := [("BTC", -(3/5)), ("others", -(3/10))] },
    { name := "defi_collapse", description := "DeFi sector collapse",
      shocks := [("DeFi", -(7/10)), ("others", -(1/5))] },
    { name := "regulatory_crackdown", description := "Major regulatory restrictions",
      shocks := [("all", -(2/5))] } ]

/-- Per-scenario entry of stress_results['scenarios'] (source lines
229-236), built only when portfolio_value is nonzero. -/
structure ScenarioResult where
  description : String
  portfolio_value_before : ℚ
  portfolio_value_after : ℚ
  absolute_loss : ℚ
  percentage_loss : ℚ
  asset_impacts : List (String × AssetImpact)
deriving Repr, DecidableEq, Inhabited

/-- stress_results (source lines 213-251). -/
structure StressResults where
  scenarios : List (String × ScenarioResult)
  worst_case_name : String
  worst_case : ScenarioResult
  portfolio_resilience_score : ℚ
deriving Repr, DecidableEq

/-- The portfolio dict as perform_stress_test reads it: a 'holdings' list
(via _apply_stress_scenario, with .get default []) and an optional
'total_value' key (read with .get(..., 0) at line 220). -/
structure StressPortfolio where
  holdings : List Holding := []
  total_value : Option ℚ := none
deriving Repr, DecidableEq

/-- Python min(items, key=value_after): the first entry attaining the
minimal portfolio_value_after. -/
def minByValueAfter (x : String × ScenarioResult) :
    List (String × ScenarioResult) → String × ScenarioResult
  | [] => x
  | y :: ys =>
    if y.2.portfolio_value_after < x.2.portfolio_value_after
    then minByValueAfter y ys else minByValueAfter x ys

/-- np.mean over a list of rationals (nonempty in every guarded use). -/
def listMean (l : List ℚ) : ℚ := l.sum / (l.length : ℚ)

/-- perform_stress_test (source lines 205-257).  The percentage_loss
expression at line 234 divides by portfolio_value: when that value is 0
Python raises ZeroDivisionError in the first loop iteration, which the
blanket except at line 255 turns into a returned error dict — modelled as
Except.error "division by zero".  With an empty scenario list the min()
call at line 239 raises on an empty sequence, likewise caught. -/
def perform_stress_test (portfolio : StressPortfolio)
    (price_data : List (String × PriceData)) (scenarios : List Scenario) :
    Except String StressResults :=
  let portfolio_value := portfolio.total_value.getD 0
  match scenarios with
  | [] => .error "min() arg is an empty sequence"
  | sc :: rest =>
    if portfolio_value = 0 then .error "division by zero"
    else
      let results := (sc :: rest).map (fun s =>
        let r := apply_stress_scenario portfolio.holdings s.shocks price_data
        (s.name,
         { description := s.description
           portfolio_value_before := portfolio_value
           portfolio_value_after := r.1
           absolute_loss := portfolio_value - r.1
           percentage_loss := ((portfolio_value - r.1) / portfolio_value) * 100
           asset_impacts := r.2 }))
      let worst := minByValueAfter (results.headI) results.tail
      let avg_loss := listMean (results.map (fun p => p.2.percentage_loss))
      .ok { scenarios := results
            worst_case_name := worst.1
            worst_case := worst.2
            portfolio_resilience_score := max 0 (100 - avg_loss) }

/-! ## Correlation analysis (_analyze_portfolio_correlations, lines
343-396) -/

/-- The payload of the full correlation branch: the aligned (truncated to
the common most-recent length) return series per kept symbol, and the
portfolio weights the source collects at line 379.  The derived numeric
fields (correlation matrix, diversification ratio, ...) are functions of
exactly this data. -/
structure CorrReport where
  aligned_returns : List (String × List NpFloat)
  weights : List ℚ
deriving Repr, DecidableEq

/-- The three shapes the _analyze_portfolio_correlations result dict can
take: the <2-assets message dict (line 349), the insufficient-data error
dict (line 362), or the full report (lines 384-392). -/
inductive CorrOutcome where
  | message (msg : String)
  | error (msg : String)
  | report (r : CorrReport)
deriving Repr, DecidableEq

/-- Sample variance with the pandas default ddof = 1 (0 when fewer than 2
observations, where pandas would give NaN; the guarded use below always
has at least 10). -/
def sampleVar (l : List ℚ) : ℚ :=
  if l.length < 2 then 0
  else
    let m := listMean l
    (l.map (fun x => (x - m) ^ 2)).sum / ((l.length : ℚ) - 1)

/-- The value of an NpFloat when it is finite, 0 otherwise (the guarded
uses below only reach finite values). -/
def NpFloat.val : NpFloat → ℚ
  | .fin q => q
  | _ => 0

/-- Diversification ratio of a report (source lines 378-382): weighted
average of the individual sample standard deviations divided by the
portfolio volatility sqrt(w . Cov . w) (source lines 608-619), with the
source's fallback to 1 when the portfolio volatility is not positive. -/
noncomputable def CorrReport.diversification_ratio (r : CorrReport) : ℝ :=
  let cols : List (List ℚ) := r.aligned_returns.map (fun p => p.2.map NpFloat.val)
  let stds : List ℝ := cols.map (fun c => Real.sqrt ((sampleVar c : ℚ) : ℝ))
  let weighted_avg : ℝ := ((r.weights.zip stds).map (fun p => (p.1 : ℝ) * p.2)).sum
  let cov : ℕ → ℕ → ℚ := fun i j =>
    let ci := cols.getD i []
    let cj := cols.getD j []
    let mi := listMean ci
    let mj := listMean cj
    if ci.length < 2 then 0
    else ((ci.zip cj).map (fun p => (p.1 - mi) * (p.2 - mj))).sum / ((ci.length : ℚ) - 1)
  let n := cols.length
  let pvar : ℚ := (((List.range n).map (fun i =>
    ((List.range n).map (fun j =>
      r.weights.getD i 0 * cov i j * r.weights.getD j 0)).sum)).sum)
  let pvol : ℝ := Real.sqrt ((pvar : ℚ) : ℝ)
  if pvol > 0 then weighted_avg / pvol else 1

/-- Whether the correlation outcome carries a diversification_ratio field
at all — only the full report dict does. -/
def CorrOutcome.hasDiversificationRatio : CorrOutcome → Bool
  | .report _ => true
  | _ => false

/-- _analyze_portfolio_correlations (source lines 343-396): fewer than 2
assets yields the message dict; then per symbol the return series is
computed and kept when nonempty; fewer than 2 kept series or a common
length below 10 yields the error dict; otherwise each series is truncated
to its most recent min_length observations and the report is built (the
weights list collects asset['weight'] for assets whose symbol is in the
symbols list — the source's condition at line 379, which every asset
satisfies).  Python's min_length starts at float inf; it is modelled with
Option.getD 0, observationally identical because when no series is kept
the first disjunct of the insufficiency test fires anyway. -/
def analyze_portfolio_correlations (portfolio_data : PortfolioData)
    (price_data : List (String × PriceData)) : CorrOutcome :=
  let symbols := portfolio_data.assets.map (·.symbol)
  if symbols.length < 2 then
    .message "Need at least 2 assets for correlation analysis"
  else
    let returns_data : List (String × List NpFloat) :=
      symbols.filterMap (fun s =>
        let r := calc_returns (prices_of price_data s)
        if r.length > 0 then some (s, r) else none)
    let min_length : ℕ := ((returns_data.map (fun p => p.2.length)).min?).getD 0
    if returns_data.length < 2 ∨ min_length < 10 then
      .error "Insufficient data for correlation analysis"
    else
      .report
        { aligned_returns := returns_data.map (fun p =>
            (p.1, p.2.drop (p.2.length - min_length)))
          weights := (portfolio_data.assets.filter
            (fun a => a.symbol ∈ symbols)).map (·.weight) }

/-! ## Orchestrator control flow (assess_portfolio_risk, lines 46-98)

assess_portfolio_risk wraps its whole body in one try/except that, on any
uncaught exception, returns the bare dict \x7b'error': str(e)\x7d — discarding
every field of the partially built risk_assessment dict.  Of the stages it
calls, _calculate_portfolio_risk_metrics, _analyze_portfolio_correlations,
calculate_var and perform_stress_test each wrap their own body and return
an error dict instead of raising, so their failures land as per-field
values; _prepare_portfolio_data (line 66) and _assess_asset_risk (line 71)
have no internal handler, so their exceptions reach the top-level except.
The model is parametric in the stage payloads and outcomes: an Except
value per stage is exactly what each stage call can produce. -/

/-- The completed risk_assessment dict (the fields the error-handling
claim concerns; source lines 51-92).  Stage fields of guarded stages hold
either the stage payload or the stage's own error dict. -/
structure AssessmentRecord (π α μ κ ν σ : Type) where
  total_value_usd : ℚ
  asset_risks : α
  risk_metrics : Except String μ
  correlation_analysis : Except String κ
  var_analysis : Except String ν
  stress_test_results : Except String σ
  risk_score : ℚ

/-- The try/except skeleton of assess_portfolio_risk (source lines
46-98): portfolio preparation and the per-asset risk loop run unguarded —
their failure aborts the call and only the bare error is returned; the
four guarded stages contribute their Except results as field values and
the overall score is computed from those four stage results. -/
def assess_portfolio_flow {π α μ κ ν σ : Type}
    (prepare : Except String π) (total_value : π → ℚ)
    (asset_risks : π → Except String α)
    (risk_metrics : π → Except String μ)
    (correlations : π → Except String κ)
    (var_analysis : π → Except String ν)
    (stress_tests : π → Except String σ)
    (score : Except String μ → Except String κ → Except String ν →
      Except String σ → ℚ) :
    Except String (AssessmentRecord π α μ κ ν σ) :=
  match prepare with
  | .error e => .error e
  | .ok pd =>
    match asset_risks pd with
    | .error e => .error e
    | .ok ar =>
      .ok { total_value_usd := total_value pd
            asset_risks := ar
            risk_metrics := risk_metrics pd
            correlation_analysis := correlations pd
            var_analysis := var_analysis pd
            stress_test_results := stress_tests pd
            risk_score := score (risk_metrics pd) (correlations pd)
              (var_analysis pd) (stress_tests pd) }

/-! ## Theorems -/

/-- Claim C9: for every input the overall risk score returned by
_calculate_overall_risk_score lies in [0, 100]: the weighted mean is
clamped with min(100, max(0, .)) at line 439 (and the exception fallback
50.0 at line 445 also lies in the interval). -/
theorem overall_risk_score_in_range (x : RiskScoreInputs) :
    0 ≤ calc_overall_risk_score x ∧ calc_overall_risk_score x ≤ 100 := by
  unfold calc_overall_risk_score
  exact ⟨le_min (by norm_num) (le_max_left 0 _), min_le_left _ _⟩

/-- Claim C9 boundary instance: an annual volatility of 500% (and a large
VaR) still yields a score of exactly 100, the clamp boundary. -/
theorem overall_risk_score_extreme_input :
    calc_overall_risk_score
      { annual_volatility := some 5, var_95_percentage := some 200,
        average_correlation := some 1, portfolio_resilience_score := some 0 }
      = 100 := by
  norm_num [calc_overall_risk_score]

/-- Claim C3 counterexample: with only the volatility sub-score available
(annual volatility 100%), the source computes 42.5 — the absent VaR and
correlation scores enter as 0 and the absent resilience as 50 under the
full fixed weights — whereas the claimed renormalized weighted mean over
the computable subset would be 100. -/
theorem overall_risk_score_not_renormalized :
    calc_overall_risk_score { annual_volatility := some 1 } = 85 / 2 ∧
    overall_risk_score_spec { annual_volatility := some 1 } = 100 ∧
    (85 / 2 : ℚ) ≠ 100 := by
  refine ⟨by norm_num [calc_overall_risk_score],
    by norm_num [overall_risk_score_spec], by norm_num⟩

/-- Claim C3 amended: _calculate_overall_risk_score never renormalizes:
a missing sub-score behaves exactly like one present at its .get default
(0 for volatility, VaR and correlation, resilience 50), all four fixed
weights 0.30/0.25/0.20/0.25 always apply, and when no sub-score is
available at all the result is 12.5 — not the claimed default of 50
(50.0 is returned only from the exception handler at line 445). -/
theorem overall_risk_score_uses_defaults (x : RiskScoreInputs) :
    calc_overall_risk_score x =
      calc_overall_risk_score
        { annual_volatility := some (x.annual_volatility.getD 0)
          var_95_percentage := some (x.var_95_percentage.getD 0)
          average_correlation := some (x.average_correlation.getD 0)
          portfolio_resilience_score :=
            some (x.portfolio_resilience_score.getD 50) } ∧
    calc_overall_risk_score {} = 25 / 2 := by
  exact ⟨rfl, by norm_num [calc_overall_risk_score]⟩

/-- Sum of a list after dividing every element: helper for the weight-sum
argument. -/
theorem list_sum_map_div (l : List ℚ) (c : ℚ) :
    (l.map (· / c)).sum = l.sum / c := by
  induction l with
  | nil => simp
  | cons x xs ih => simp [ih, add_div]

/-- Claim C10: _prepare_portfolio_data assigns weight value/total_value
when total_value > 0 and 0 when total_value = 0; with a positive total
and nonnegative quantities and prices every weight lies in [0, 1] and the
weights sum to 1. -/
theorem prepare_portfolio_weights (holdings : List Holding)
    (price_data : List (String × PriceData))
    (hq : ∀ h ∈ holdings, 0 ≤ h.quantity)
    (hp : ∀ h ∈ holdings, 0 ≤ current_price_of price_data h.symbol) :
    ((prepare_portfolio_data holdings price_data).total_value = 0 →
      ∀ a ∈ (prepare_portfolio_data holdings price_data).assets, a.weight = 0) ∧
    (0 < (prepare_portfolio_data holdings price_data).total_value →
      (∀ a ∈ (prepare_portfolio_data holdings price_data).assets,
        0 ≤ a.weight ∧ a.weight ≤ 1) ∧
      ((prepare_portfolio_data holdings price_data).assets.map (·.weight)).sum
        = 1) := by
  unfold prepare_portfolio_data
  simp only
  set base : List Asset := holdings.map (fun h =>
    let price := current_price_of price_data h.symbol
    { symbol := h.symbol, quantity := h.quantity, current_price := price,
      value := h.quantity * price, weight := 0 }) with hbase
  set T : ℚ := (base.map (·.value)).sum with hT
  have hvals : ∀ v ∈ base.map (·.value), 0 ≤ v := by
    intro v hv
    rcases List.mem_map.1 hv with ⟨a, ha, rfl⟩
    rcases List.mem_map.1 ha with ⟨h, hh, rfl⟩
    exact mul_nonneg (hq h hh) (hp h hh)
  constructor
  · intro hT0 a ha
    rcases List.mem_map.1 ha with ⟨b, _, rfl⟩
    simp only [hT0] at *
    simp [hT0]
  · intro hTpos
    constructor
    · intro a ha
      rcases List.mem_map.1 ha with ⟨b, hb, rfl⟩
      have hbval : 0 ≤ b.value := hvals _ (List.mem_map_of_mem _ hb)
      have hble : b.value ≤ T := List.single_le_sum hvals _ (List.mem_map_of_mem _ hb)
      constructor
      · simp only [if_pos hTpos]
        exact div_nonneg hbval (le_of_lt hTpos)
      · simp only [if_pos hTpos]
        exact (div_le_one hTpos).2 hble
    · have : (base.map (fun a =>
          ({ a with weight := if T > 0 then a.value / T else 0 } : Asset))).map
          (·.weight) = (base.map (·.value)).map (· / T) := by
        simp [if_pos hTpos, Function.comp]
      rw [this, list_sum_map_div, ← hT, div_self (ne_of_gt hTpos)]

/-- Claim C10 witness: a two-holding portfolio with positive prices has
weights 1/2 and 1/2 summing to 1. -/
theorem prepare_portfolio_weights_witness :
    (∀ h ∈ [({ symbol := "BTC", quantity := 1 } : Holding),
            { symbol := "ETH", quantity := 2 }], 0 ≤ h.quantity) ∧
    (∀ h ∈ [({ symbol := "BTC", quantity := 1 } : Holding),
            { symbol := "ETH", quantity := 2 }],
      0 ≤ current_price_of
        [("BTC", { current_price := some 100, prices := [] }),
         ("ETH", { current_price := some 50, prices := [] })] h.symbol) ∧
    (((prepare_portfolio_data
        [{ symbol := "BTC", quantity := 1 }, { symbol := "ETH", quantity := 2 }]
        [("BTC", { current_price := some 100, prices := [] }),
         ("ETH", { current_price := some 50, prices := [] })]).total_value = 0 →
      ∀ a ∈ (prepare_portfolio_data
        [{ symbol := "BTC", quantity := 1 }, { symbol := "ETH", quantity := 2 }]
        [("BTC", { current_price := some 100, prices := [] }),
         ("ETH", { current_price := some 50, prices := [] })]).assets,
        a.weight = 0) ∧
    (0 < (prepare_portfolio_data
        [{ symbol := "BTC", quantity := 1 }, { symbol := "ETH", quantity := 2 }]
        [("BTC", { current_price := some 100, prices := [] }),
         ("ETH", { current_price := some 50, prices := [] })]).total_value →
      (∀ a ∈ (prepare_portfolio_data
        [{ symbol := "BTC", quantity := 1 }, { symbol := "ETH", quantity := 2 }]
        [("BTC", { current_price := some 100, prices := [] }),
         ("ETH", { current_price := some 50, prices := [] })]).assets,
        0 ≤ a.weight ∧ a.weight ≤ 1) ∧
      ((prepare_portfolio_data
        [{ symbol := "BTC", quantity := 1 }, { symbol := "ETH", quantity := 2 }]
        [("BTC", { current_price := some 100, prices := [] }),
         ("ETH", { current_price := some 50, prices := [] })]).assets.map
          (·.weight)).sum = 1)) :=
  ⟨by decide, by decide,
   prepare_portfolio_weights _ _ (by decide) (by decide)⟩

/-- The source's shock resolution agrees with the precedence-ordered
lookup over the key priority list 'all', exact symbol, 'others'. -/
theorem resolve_shock_eq_ordered (shocks : List (String × ℚ)) (symbol : String) :
    resolve_shock shocks symbol = resolve_shock_ordered shocks symbol := by
  unfold resolve_shock resolve_shock_ordered
  cases hall : shocks.lookup "all" with
  | some s => simp [List.filter, hall]
  | none =>
    cases hsym : shocks.lookup symbol with
    | some s => simp [List.filter, hall, hsym]
    | none =>
      cases hoth : shocks.lookup "others" with
      | some s => simp [List.filter, hall, hsym, hoth]
      | none => simp [List.filter, hall, hsym, hoth]

/-- Claim C1 counterexample: with shocks containing both the wildcard
'all' (-0.5) and the exact symbol BTC (-0.6), the source applies the
'all' shock -0.5 to the BTC holding — the exact-symbol shock does NOT
take precedence as claimed. -/
theorem shock_precedence_counterexample :
    (apply_stress_scenario [{ symbol := "BTC", quantity := 1 }]
        [("all", -(1/2)), ("BTC", -(3/5))]
        [("BTC", { current_price := some 100, prices := [] })]).2 =
      [("BTC", { original_price := 100, new_price := 50,
                 shock_applied := -(1/2), value_change := -50 })] ∧
    (-(1/2) : ℚ) ≠ -(3/5) := by
  constructor
  · norm_num [apply_stress_scenario, current_price_of, resolve_shock, List.lookup]
  · norm_num

/-- Claim C1 amended: the resolved shock follows the precedence wildcard
'all' > exact symbol > wildcard 'others' > 0 (the source tests 'all'
first, lines 692-697): every per-holding impact records the shock given
by the precedence-ordered lookup with that key order. -/
theorem shock_resolution_follows_order (holdings : List Holding)
    (shocks : List (String × ℚ)) (price_data : List (String × PriceData))
    (sym : String) (imp : AssetImpact)
    (hmem : (sym, imp) ∈ (apply_stress_scenario holdings shocks price_data).2) :
    imp.shock_applied = resolve_shock_ordered shocks sym := by
  rw [← resolve_shock_eq_ordered]
  unfold apply_stress_scenario at hmem
  have key : ∀ (hs : List Holding) (acc : ℚ × List (String × AssetImpact)),
      (∀ p ∈ acc.2, (p.2).shock_applied = resolve_shock shocks p.1) →
      ∀ p ∈ (hs.foldl (fun acc h =>
        let current_price := current_price_of price_data h.symbol
        let shock := resolve_shock shocks h.symbol
        let new_price := current_price * (1 + shock)
        let new_asset_value := h.quantity * new_price
        (acc.1 + new_asset_value,
         acc.2 ++ [(h.symbol,
           { original_price := current_price, new_price := new_price,
             shock_applied := shock,
             value_change := new_asset_value - h.quantity * current_price })]))
        acc).2, (p.2).shock_applied = resolve_shock shocks p.1 := by
    intro hs
    induction hs with
    | nil => intro acc hacc p hp; exact hacc p hp
    | cons h t ih =>
      intro acc hacc
      rw [List.foldl_cons]
      apply ih
      intro p hp
      rcases List.mem_append.1 hp with h1 | h2
      · exact hacc p h1
      · rcases List.mem_singleton.1 h2 with rfl
        rfl
  exact key holdings (0, []) (by intro p hp; cases hp) (sym, imp) hmem

/-- Claim C1 amended witness: in the bitcoin_crash scenario shocks the
BTC holding receives the exact-symbol shock -0.6 in accordance with the
ordered lookup. -/
theorem shock_resolution_follows_order_witness :
    ("BTC", ({ original_price := 100, new_price := 40,
               shock_applied := -(3/5), value_change := -60 } : AssetImpact)) ∈
      (apply_stress_scenario [{ symbol := "BTC", quantity := 1 }]
        [("BTC", -(3/5)), ("others", -(3/10))]
        [("BTC", { current_price := some 100, prices := [] })]).2 ∧
    ({ original_price := 100, new_price := 40, shock_applied := -(3/5),
       value_change := -60 } : AssetImpact).shock_applied =
      resolve_shock_ordered [("BTC", -(3/5)), ("others", -(3/10))] "BTC" := by
  have hlist : (apply_stress_scenario [{ symbol := "BTC", quantity := 1 }]
      [("BTC", -(3/5)), ("others", -(3/10))]
      [("BTC", { current_price := some 100, prices := [] })]).2 =
      [("BTC", { original_price := 100, new_price := 40,
                 shock_applied := -(3/5), value_change := -60 })] := by
    have hres : resolve_shock [("BTC", -(3/5)), ("others", -(3/10))] "BTC"
        = -(3/5) := by rfl
    norm_num [apply_stress_scenario, current_price_of, hres, List.lookup]
  have hmem : ("BTC", ({ original_price := 100, new_price := 40,
                           shock_applied := -(3/5),
                           value_change := -60 } : AssetImpact)) ∈
      (apply_stress_scenario [{ symbol := "BTC", quantity := 1 }]
        [("BTC", -(3/5)), ("others", -(3/10))]
        [("BTC", { current_price := some 100, prices := [] })]).2 := by
    rw [hlist]; exact List.mem_singleton.2 rfl
  exact ⟨hmem,
    shock_resolution_follows_order [{ symbol := "BTC", quantity := 1 }]
      [("BTC", -(3/5)), ("others", -(3/10))]
      [("BTC", { current_price := some 100, prices := [] })] "BTC" _ hmem⟩

/-- Claim C2 counterexample: a portfolio whose total value is 0 makes
perform_stress_test return the error result from the caught
ZeroDivisionError — not a scenarios result with percentage_loss 0. -/
theorem stress_zero_value_counterexample :
    perform_stress_test { holdings := [], total_value := some 0 } []
        default_stress_scenarios = Except.error "division by zero" ∧
    (perform_stress_test { holdings := [], total_value := some 0 } []
        default_stress_scenarios).isOk = false := by
  exact ⟨rfl, rfl⟩

/-- Claim C2 amended: for every portfolio whose starting total value is 0
(the .get default 0 included) and any nonempty scenario list, the
percentage_loss division at line 234 raises ZeroDivisionError in the
first loop iteration; the blanket except turns it into a returned error
result, so no per-scenario losses are reported at all. -/
theorem stress_zero_value_error (portfolio : StressPortfolio)
    (price_data : List (String × PriceData)) (scenarios : List Scenario)
    (h0 : portfolio.total_value.getD 0 = 0) (hs : scenarios ≠ []) :
    perform_stress_test portfolio price_data scenarios =
      Except.error "division by zero" := by
  unfold perform_stress_test
  match scenarios, hs with
  | sc :: rest, _ => simp [h0]

/-- Claim C2 amended witness: the default scenarios on a zero-value
portfolio produce the division-by-zero error result. -/
theorem stress_zero_value_error_witness :
    (({ holdings := [{ symbol := "BTC", quantity := 1 }],
        total_value := some 0 } : StressPortfolio).total_value.getD 0 = 0) ∧
    default_stress_scenarios ≠ [] ∧
    perform_stress_test
      { holdings := [{ symbol := "BTC", quantity := 1 }], total_value := some 0 }
      [] default_stress_scenarios = Except.error "division by zero" :=
  ⟨by decide, by decide,
   stress_zero_value_error _ [] _ (by decide) (by decide)⟩

/-- Claim C5 counterexample: the price list [0, 5] is not filtered —
_calculate_returns produces one return from the pair with previous price
0, and that return is the non-finite value inf (numpy's 5/0), not a
finite number; under the claimed exclusion the zero-price record would
have been dropped and no return produced. -/
theorem returns_zero_price_counterexample :
    calc_returns [0, 5] = [NpFloat.inf] ∧
    NpFloat.isFinite NpFloat.inf = false ∧
    ([NpFloat.inf] : List NpFloat) ≠ [] := by
  refine ⟨rfl, rfl, by simp⟩

/-- Claim C5 amended: _calculate_returns performs no filtering of zero or
negative price observations — every consecutive pair contributes one
return (length = number of prices - 1 whenever there are at least 2) —
but whenever all prices are strictly positive every produced return is a
finite number and no division by a zero previous price occurs. -/
theorem returns_unfiltered_finite_when_positive (prices : List ℚ)
    (hp : ∀ p ∈ prices, 0 < p) :
    (2 ≤ prices.length → (calc_returns prices).length = prices.length - 1) ∧
    ∀ r ∈ calc_returns prices, r.isFinite = true := by
  constructor
  · intro h2
    unfold calc_returns
    rw [if_neg (by omega)]
    rw [List.length_map, List.length_zip, List.length_tail]
    omega
  · intro r hr
    unfold calc_returns at hr
    by_cases hl : prices.length < 2
    · rw [if_pos hl] at hr
      cases hr
    · rw [if_neg hl] at hr
      rcases List.mem_map.1 hr with ⟨pc, hpc, rfl⟩
      have hfst : pc.1 ∈ prices := (List.of_mem_zip hpc).1
      have hpos : 0 < pc.1 := hp _ hfst
      unfold np_div_return
      rw [if_neg (ne_of_gt hpos)]
      rfl

/-- Claim C5 amended witness: the positive price list [1, 2] yields one
finite return. -/
theorem returns_unfiltered_finite_witness :
    (∀ p ∈ ([1, 2] : List ℚ), 0 < p) ∧
    ((2 ≤ ([1, 2] : List ℚ).length →
      (calc_returns [1, 2]).length = ([1, 2] : List ℚ).length - 1) ∧
    ∀ r ∈ calc_returns [1, 2], r.isFinite = true) :=
  ⟨by norm_num,
   returns_unfiltered_finite_when_positive [1, 2] (by norm_num)⟩

/-- Claim C7 counterexample: for a single-asset portfolio the correlation
analysis returns only the message dict 'Need at least 2 assets for
correlation analysis' — no report is produced, so no diversification_ratio
(in particular not the claimed value 1.0) is reported. -/
theorem correlation_single_asset_counterexample :
    analyze_portfolio_correlations
        { assets := [{ symbol := "BTC", quantity := 1, current_price := 100,
                       value := 100, weight := 1 }],
          total_value := 100, asset_count := 1 } [] =
      CorrOutcome.message "Need at least 2 assets for correlation analysis" ∧
    CorrOutcome.hasDiversificationRatio
      (analyze_portfolio_correlations
        { assets := [{ symbol := "BTC", quantity := 1, current_price := 100,
                       value := 100, weight := 1 }],
          total_value := 100, asset_count := 1 } []) = false := by
  exact ⟨rfl, rfl⟩

/-- Claim C7 amended: for every portfolio of exactly one asset, the
correlation analysis reports the insufficient-assets message instead of a
numeric matrix; it carries no diversification_ratio field at all (the 1.0
value the claim expects is never produced on this path). -/
theorem correlation_single_asset_message (portfolio_data : PortfolioData)
    (price_data : List (String × PriceData))
    (h1 : portfolio_data.assets.length = 1) :
    analyze_portfolio_correlations portfolio_data price_data =
      CorrOutcome.message "Need at least 2 assets for correlation analysis" ∧
    CorrOutcome.hasDiversificationRatio
      (analyze_portfolio_correlations portfolio_data price_data) = false := by
  have hmsg : analyze_portfolio_correlations portfolio_data price_data =
      CorrOutcome.message "Need at least 2 assets for correlation analysis" := by
    unfold analyze_portfolio_correlations
    rw [if_pos (by rw [List.length_map, h1]; omega)]
  exact ⟨hmsg, by rw [hmsg]; rfl⟩

/-- Claim C7 amended witness: a concrete one-asset portfolio. -/
theorem correlation_single_asset_message_witness :
    ({ assets := [{ symbol := "BTC", quantity := 1, current_price := 100,
                    value := 100, weight := 1 }],
       total_value := 100, asset_count := 1 } : PortfolioData).assets.length
      = 1 ∧
    (analyze_portfolio_correlations
        { assets := [{ symbol := "BTC", quantity := 1, current_price := 100,
                       value := 100, weight := 1 }],
          total_value := 100, asset_count := 1 }
        [("BTC", { current_price := some 100, prices := [] })] =
      CorrOutcome.message "Need at least 2 assets for correlation analysis" ∧
    CorrOutcome.hasDiversificationRatio
      (analyze_portfolio_correlations
        { assets := [{ symbol := "BTC", quantity := 1, current_price := 100,
                       value := 100, weight := 1 }],
          total_value := 100, asset_count := 1 }
        [("BTC", { current_price := some 100, prices := [] })]) = false) :=
  ⟨rfl, correlation_single_asset_message _ _ rfl⟩

/-- Claim C6 counterexample: with portfolio preparation succeeding (total
value 100 computed) and the unguarded per-asset risk stage failing, the
orchestrator returns only the bare error — the completed total value and
the sibling stages' results are not returned, contradicting the claimed
behaviour of surfacing the error as a field on an otherwise-populated
assessment. -/
theorem orchestrator_error_counterexample :
    @assess_portfolio_flow ℚ ℚ ℚ ℚ ℚ ℚ (Except.ok 100) id
        (fun _ => Except.error "KeyError") (fun _ => Except.ok 1)
        (fun _ => Except.ok 2) (fun _ => Except.ok 3) (fun _ => Except.ok 4)
        (fun _ _ _ _ => 0) =
      Except.error "KeyError" ∧
    (@assess_portfolio_flow ℚ ℚ ℚ ℚ ℚ ℚ (Except.ok 100) id
        (fun _ => Except.error "KeyError") (fun _ => Except.ok 1)
        (fun _ => Except.ok 2) (fun _ => Except.ok 3) (fun _ => Except.ok 4)
        (fun _ _ _ _ => 0)).isOk = false := by
  exact ⟨rfl, rfl⟩

/-- Claim C6 amended: the four guarded stages (risk metrics, correlation,
VaR, stress tests) have their failures isolated as per-field Except
values — a guarded stage returning an error never aborts its siblings,
whose computed results all appear in the returned assessment — but an
unexpected failure in portfolio preparation or in the unguarded per-asset
risk stage makes the call return only the bare top-level error,
discarding every previously completed sub-result. -/
theorem orchestrator_guarded_isolation {π α μ κ ν σ : Type}
    (pd : π) (total_value : π → ℚ) (ar : α)
    (risk_metrics : π → Except String μ) (correlations : π → Except String κ)
    (var_analysis : π → Except String ν) (stress_tests : π → Except String σ)
    (score : Except String μ → Except String κ → Except String ν →
      Except String σ → ℚ) (e : String) :
    assess_portfolio_flow (Except.ok pd) total_value (fun _ => Except.ok ar)
        risk_metrics correlations var_analysis stress_tests score =
      Except.ok
        { total_value_usd := total_value pd
          asset_risks := ar
          risk_metrics := risk_metrics pd
          correlation_analysis := correlations pd
          var_analysis := var_analysis pd
          stress_test_results := stress_tests pd
          risk_score := score (risk_metrics pd) (correlations pd)
            (var_analysis pd) (stress_tests pd) } ∧
    assess_portfolio_flow (Except.error e) total_value
        (fun _ => Except.ok ar) risk_metrics correlations var_analysis
        stress_tests score = Except.error e := by
  exact ⟨rfl, rfl⟩

/-- Consecutive pairs of a positive strictly increasing list: a positive
previous element and a strictly larger current one. -/
theorem zip_tail_pairs_of_chain : ∀ (l : List ℚ), l.Chain' (· < ·) →
    (∀ p ∈ l, 0 < p) → ∀ pr ∈ l.zip l.tail, 0 < pr.1 ∧ pr.1 < pr.2 := by
  intro l
  induction l with
  | nil => intro _ _ pr hpr; cases hpr
  | cons a t ih =>
    intro hchain hpos pr hpr
    cases t with
    | nil => cases hpr
    | cons b t2 =>
      rw [List.chain'_cons] at hchain
      simp only [List.tail_cons, List.zip_cons_cons, List.mem_cons] at hpr
      rcases hpr with rfl | hpr
      · exact ⟨hpos _ (List.mem_cons_self _ _), hchain.1⟩
      · exact ih hchain.2 (fun p hp => hpos p (List.mem_cons_of_mem _ hp)) pr hpr

/-- cumprodAux from a positive start over factors all at least 1 is a
nondecreasing chain of positive values. -/
theorem chain_cumprodAux : ∀ (fs : List ℚ) (acc : ℚ), 0 < acc →
    (∀ f ∈ fs, 1 ≤ f) → List.Chain (· ≤ ·) acc (cumprodAux acc fs) := by
  intro fs
  induction fs with
  | nil => intro acc _ _; exact List.Chain.nil
  | cons f t ih =>
    intro acc hacc hf
    rw [cumprodAux]
    have hf1 : 1 ≤ f := hf f (List.mem_cons_self _ _)
    have hstep : acc ≤ acc * f := le_mul_of_one_le_right (le_of_lt hacc) hf1
    have hpos : 0 < acc * f := mul_pos hacc (lt_of_lt_of_le one_pos hf1)
    exact List.Chain.cons hstep
      (ih (acc * f) hpos (fun g hg => hf g (List.mem_cons_of_mem _ hg)))

/-- Running maximum of a nondecreasing chain is the identity. -/
theorem runningMaxAux_of_chain : ∀ (xs : List ℚ) (m : ℚ),
    List.Chain (· ≤ ·) m xs → runningMaxAux m xs = xs := by
  intro xs
  induction xs with
  | nil => intro m _; rfl
  | cons x t ih =>
    intro m hc
    rw [List.chain_cons] at hc
    rw [runningMaxAux, max_eq_right hc.1, ih x hc.2]

/-- For factors all at least 1, the running maximum of the cumulative
product is the cumulative product itself. -/
theorem runningMax_cumprod (fs : List ℚ) (hf : ∀ f ∈ fs, 1 ≤ f) :
    runningMax (cumprod fs) = cumprod fs := by
  cases fs with
  | nil => rfl
  | cons f t =>
    rw [cumprod, cumprodAux, runningMax]
    have hchain : List.Chain (· ≤ ·) (1 * f) (cumprodAux (1 * f) t) := by
      apply chain_cumprodAux
      · have : (1 : ℚ) ≤ f := hf f (List.mem_cons_self _ _)
        linarith
      · exact fun g hg => hf g (List.mem_cons_of_mem _ hg)
    rw [runningMaxAux_of_chain _ _ hchain]

/-- Element-wise (c - c) / c over a list zipped with itself is all
zeros. -/
theorem zip_self_drawdown_zero : ∀ (l : List ℚ),
    (l.zip l).map (fun cm => (cm.1 - cm.2) / cm.2) = List.replicate l.length 0 := by
  intro l
  induction l with
  | nil => rfl
  | cons x t ih =>
    simp only [List.zip_cons_cons, List.map_cons, List.length_cons,
      List.replicate_succ, sub_self, zero_div]
    rw [ih]

/-- The minimum of a list of zeros is zero. -/
theorem listMin_replicate_zero : ∀ (n : ℕ), listMin (List.replicate n 0) = 0 := by
  intro n
  cases n with
  | zero => rfl
  | succ m =>
    rw [List.replicate_succ, listMin]
    induction m with
    | zero => rfl
    | succ k ihk =>
      rw [List.replicate_succ, List.foldl_cons, min_self]
      exact ihk

/-- Claim C8: for every strictly monotonically increasing positive price
series with at least 2 points, _calculate_max_drawdown returns exactly 0:
every return is positive, so the cumulative product of 1 + return equals
its own running maximum at every index (positivity of the prices is the
PriceSeries invariant price > 0 of the data model). -/
theorem max_drawdown_zero_of_increasing (prices : List ℚ)
    (hlen : 2 ≤ prices.length) (hpos : ∀ p ∈ prices, 0 < p)
    (hmono : prices.Chain' (· < ·)) :
    calc_max_drawdown prices = 0 := by
  unfold calc_max_drawdown
  rw [if_neg (by omega)]
  dsimp only
  have hpairs := zip_tail_pairs_of_chain prices hmono hpos
  have hf : ∀ f ∈ ((prices.zip prices.tail).map
      (fun pc => (pc.2 - pc.1) / pc.1)).map (fun r => 1 + r), 1 ≤ f := by
    intro f hfm
    rcases List.mem_map.1 hfm with ⟨r, hr, rfl⟩
    rcases List.mem_map.1 hr with ⟨pc, hpc, rfl⟩
    rcases hpairs pc hpc with ⟨h1, h2⟩
    have : 0 < (pc.2 - pc.1) / pc.1 := div_pos (by linarith) h1
    linarith
  rw [runningMax_cumprod _ hf, zip_self_drawdown_zero, listMin_replicate_zero,
    abs_zero]

/-- Claim C8 witness: the strictly increasing positive price series
[100, 110, 121] has max drawdown 0. -/
theorem max_drawdown_zero_witness :
    2 ≤ ([100, 110, 121] : List ℚ).length ∧
    (∀ p ∈ ([100, 110, 121] : List ℚ), 0 < p) ∧
    ([100, 110, 121] : List ℚ).Chain' (· < ·) ∧
    calc_max_drawdown [100, 110, 121] = 0 :=
  ⟨by norm_num, by norm_num, by norm_num,
   max_drawdown_zero_of_increasing [100, 110, 121] (by norm_num) (by norm_num)
     (by norm_num)⟩

/-- getD with default 0 on a sorted list is monotone in the index within
bounds. -/
theorem sorted_getD_mono {s : List ℚ} (hs : s.Sorted (· ≤ ·)) {i j : ℕ}
    (hij : i ≤ j) (hj : j < s.length) : s.getD i 0 ≤ s.getD j 0 := by
  have hi : i < s.length := lt_of_le_of_lt hij hj
  rw [List.getD_eq_getElem s 0 hi, List.getD_eq_getElem s 0 hj]
  have h2 := hs.rel_get_of_le
    (show (⟨i, hi⟩ : Fin s.length) ≤ ⟨j, hj⟩ from hij)
  simpa using h2

/-- The floor index cast to ℚ equals the rational floor for nonnegative
arguments. -/
theorem toNat_floor_cast {h : ℚ} (h0 : 0 ≤ h) :
    (((⌊h⌋).toNat : ℕ) : ℚ) = ((⌊h⌋ : ℤ) : ℚ) := by
  have := Int.toNat_of_nonneg (Int.floor_nonneg.2 h0)
  exact_mod_cast congrArg (fun z : ℤ => (z : ℚ)) this

/-- The interpolated value is at least the lower order statistic of its
cell. -/
theorem interpSorted_ge {s : List ℚ} (hs : s.Sorted (· ≤ ·)) {h : ℚ}
    (h0 : 0 ≤ h) :
    s.getD (⌊h⌋).toNat 0 ≤ interpSorted s h := by
  unfold interpSorted
  dsimp only
  by_cases hc : (⌊h⌋).toNat + 1 < s.length
  · rw [if_pos hc]
    have hmono := sorted_getD_mono hs (Nat.le_succ (⌊h⌋).toNat) hc
    have hfrac : 0 ≤ h - (((⌊h⌋).toNat : ℕ) : ℚ) := by
      rw [toNat_floor_cast h0]
      linarith [Int.floor_le h]
    exact le_add_of_nonneg_right (mul_nonneg hfrac (sub_nonneg.2 hmono))
  · rw [if_neg hc]

/-- The interpolated value is at most the upper order statistic of its
cell. -/
theorem interpSorted_le {s : List ℚ} (hs : s.Sorted (· ≤ ·)) {h : ℚ}
    (h0 : 0 ≤ h) (hc : (⌊h⌋).toNat + 1 < s.length) :
    interpSorted s h ≤ s.getD ((⌊h⌋).toNat + 1) 0 := by
  unfold interpSorted
  dsimp only
  rw [if_pos hc]
  have hmono := sorted_getD_mono hs (Nat.le_succ (⌊h⌋).toNat) hc
  have hfrac1 : h - (((⌊h⌋).toNat : ℕ) : ℚ) ≤ 1 := by
    rw [toNat_floor_cast h0]
    linarith [Int.lt_floor_add_one h]
  have hd : 0 ≤ s.getD ((⌊h⌋).toNat + 1) 0 - s.getD (⌊h⌋).toNat 0 :=
    sub_nonneg.2 hmono
  nlinarith [mul_nonneg (sub_nonneg.2 hfrac1) hd]

/-- Linear interpolation over a sorted list is monotone in the virtual
index. -/
theorem interpSorted_mono {s : List ℚ} (hs : s.Sorted (· ≤ ·)) {h1 h2 : ℚ}
    (h0 : 0 ≤ h1) (h12 : h1 ≤ h2) (hub : h2 ≤ (s.length : ℚ) - 1) :
    interpSorted s h1 ≤ interpSorted s h2 := by
  have h02 : 0 ≤ h2 := le_trans h0 h12
  have hi12 : (⌊h1⌋).toNat ≤ (⌊h2⌋).toNat :=
    Int.toNat_le_toNat (Int.floor_mono h12)
  have hnn : 1 ≤ s.length := by
    have : (1 : ℚ) ≤ (s.length : ℚ) := by
      have hf0 : (0 : ℚ) ≤ (⌊h2⌋ : ℤ) := by
        exact_mod_cast Int.floor_nonneg.2 h02
      linarith [le_trans hf0 (le_trans (Int.floor_le h2) hub)]
    exact_mod_cast this
  have hi2lt : (⌊h2⌋).toNat < s.length := by
    have hfl : (⌊h2⌋ : ℚ) ≤ (s.length : ℚ) - 1 := le_trans (Int.floor_le h2) hub
    have hcast : ((s.length - 1 : ℕ) : ℚ) = (s.length : ℚ) - 1 := by
      push_cast [Nat.cast_sub hnn]
      ring
    have hz : ⌊h2⌋ ≤ ((s.length - 1 : ℕ) : ℤ) := by
      have : (⌊h2⌋ : ℚ) ≤ ((s.length - 1 : ℕ) : ℚ) := by rw [hcast]; exact hfl
      exact_mod_cast this
    have := Int.toNat_le.2 hz
    omega
  rcases Nat.lt_or_ge (⌊h1⌋).toNat (⌊h2⌋).toNat with hlt | hge
  · have hi1c : (⌊h1⌋).toNat + 1 < s.length := by omega
    calc interpSorted s h1 ≤ s.getD ((⌊h1⌋).toNat + 1) 0 :=
        interpSorted_le hs h0 hi1c
      _ ≤ s.getD (⌊h2⌋).toNat 0 := sorted_getD_mono hs (by omega) hi2lt
      _ ≤ interpSorted s h2 := interpSorted_ge hs h02
  · have heq : (⌊h1⌋).toNat = (⌊h2⌋).toNat := le_antisymm hi12 hge
    unfold interpSorted
    dsimp only
    rw [heq]
    by_cases hc : (⌊h2⌋).toNat + 1 < s.length
    · rw [if_pos hc, if_pos hc]
      have hd : 0 ≤ s.getD ((⌊h2⌋).toNat + 1) 0 - s.getD (⌊h2⌋).toNat 0 :=
        sub_nonneg.2 (sorted_getD_mono hs (Nat.le_succ (⌊h2⌋).toNat) hc)
      have hff : h1 - (((⌊h2⌋).toNat : ℕ) : ℚ) ≤ h2 - (((⌊h2⌋).toNat : ℕ) : ℚ) := by
        linarith
      exact add_le_add_left (mul_le_mul_of_nonneg_right hff hd) _
    · rw [if_neg hc, if_neg hc]

/-- np.percentile is monotone in the percentile argument (for percentiles
in [0, 100] on a nonempty sample). -/
theorem npPercentile_mono (xs : List ℚ) (hn : 1 ≤ xs.length) {q1 q2 : ℚ}
    (hq0 : 0 ≤ q1) (hq12 : q1 ≤ q2) (hq100 : q2 ≤ 100) :
    npPercentile xs q1 ≤ npPercentile xs q2 := by
  unfold npPercentile
  dsimp only
  have hsort : (List.insertionSort (· ≤ ·) xs).Sorted (· ≤ ·) :=
    List.sorted_insertionSort _ xs
  have hlen : (List.insertionSort (· ≤ ·) xs).length = xs.length :=
    List.length_insertionSort _ xs
  have hnq : (1 : ℚ) ≤ ((List.insertionSort (· ≤ ·) xs).length : ℚ) := by
    rw [hlen]
    exact_mod_cast hn
  apply interpSorted_mono hsort
  · exact div_nonneg (mul_nonneg hq0 (by linarith)) (by norm_num)
  · rw [div_eq_mul_inv, div_eq_mul_inv]
    exact mul_le_mul_of_nonneg_right
      (mul_le_mul_of_nonneg_right hq12 (by linarith)) (by norm_num)
  · have hstep : q2 * (((List.insertionSort (· ≤ ·) xs).length : ℚ) - 1) ≤
        100 * (((List.insertionSort (· ≤ ·) xs).length : ℚ) - 1) :=
      mul_le_mul_of_nonneg_right hq100 (by linarith)
    calc q2 * (((List.insertionSort (· ≤ ·) xs).length : ℚ) - 1) / 100 ≤
        100 * (((List.insertionSort (· ≤ ·) xs).length : ℚ) - 1) / 100 := by
          rw [div_eq_mul_inv, div_eq_mul_inv]
          exact mul_le_mul_of_nonneg_right hstep (by norm_num)
      _ = ((List.insertionSort (· ≤ ·) xs).length : ℚ) - 1 := by ring

/-- Claim C4: for every portfolio return series with at least 30
observations, the historical VaR reported by calculate_var is
monotonically non-increasing in the confidence level: the estimate at
confidence 0.99 (the 1st percentile) is at most the estimate at
confidence 0.95 (the 5th percentile). -/
theorem var_monotone_in_confidence (portfolio_returns : List ℚ)
    (total_value : ℚ) (hlen : 30 ≤ portfolio_returns.length) :
    ∃ res e95 e99,
      calculate_var portfolio_returns total_value [95/100, 99/100] =
        Except.ok res ∧
      res.var_estimates = [(95/100, e95), (99/100, e99)] ∧
      e99.var_absolute ≤ e95.var_absolute := by
  have hmono : historical_var portfolio_returns (99/100) ≤
      historical_var portfolio_returns (95/100) := by
    unfold historical_var
    rw [show ((1 : ℚ) - 99/100) * 100 = 1 by norm_num,
        show ((1 : ℚ) - 95/100) * 100 = 5 by norm_num]
    exact npPercentile_mono portfolio_returns (by omega) (by norm_num)
      (by norm_num) (by norm_num)
  unfold calculate_var
  rw [if_neg (by omega)]
  exact ⟨_, _, _, rfl, rfl, hmono⟩

/-- Claim C4 witness: a concrete 30-observation return series. -/
theorem var_monotone_in_confidence_witness :
    30 ≤ (List.replicate 30 (0 : ℚ)).length ∧
    ∃ res e95 e99,
      calculate_var (List.replicate 30 (0 : ℚ)) 0
          [95/100, 99/100] = Except.ok res ∧
      res.var_estimates = [(95/100, e95), (99/100, e99)] ∧
      e99.var_absolute ≤ e95.var_absolute :=
  ⟨by rw [List.length_replicate],
   var_monotone_in_confidence _ 0 (by rw [List.length_replicate])⟩

end RiskAgent
